import Mathlib

/-!
Shallow embedding of the AO3TagBot pipeline (src/main.py).

The core pipeline is pure once the HTTP fetch and the HTML parse are
abstracted: we model a fetched-and-parsed page as a `Soup` value exposing
exactly the three lookups the code performs (`soup.find("h2", class_="title")`,
`soup.find("a", rel="author")`, `soup.find("dd", class_=c)`), and we model the
fetch as a function `String → FetchResult` supplied by the environment.
Python exceptions during fetch or parse are modelled with `Except Unit`.
Python strings are Lean `String`s; character-level operations go through
`String.data`.
-/

namespace AO3TagBot

/-- main.py line 18: recognized AO3 story link starts. -/
def AO3_STORY_URL_STARTS : List String :=
  ["https://archiveofourown.org/works", "archiveofourown.org/works"]

/-- main.py line 24: seconds to wait for responses from AO3. -/
def REQUEST_TIMEOUT : Nat := 15

/-- main.py line 27: maximum message length allowed by the telegram API. -/
def MAXIMUM_MESSAGE_LENGTH : Nat := 4096

/-- Model of Python `s.startswith(p)`: `p`'s characters are a prefix of `s`'s. -/
def startswith (s p : String) : Bool := p.data.isPrefixOf s.data

/-- main.py lines 30-34: `normalize_url` adds an explicit HTTPS schema to
schema-less links. -/
def normalize_url (url : String) : String :=
  if startswith url "https://" then url else "https://" ++ url

/-- Helper for `pySplit`: walk the characters, accumulating the current word
(in reverse); whitespace flushes the accumulator.  Models Python `str.split()`
(split on whitespace runs, no empty tokens). -/
def splitWsAux : List Char → List Char → List String
  | [], acc => if acc.isEmpty then [] else [String.mk acc.reverse]
  | c :: cs, acc =>
    if c.isWhitespace then
      if acc.isEmpty then splitWsAux cs [] else String.mk acc.reverse :: splitWsAux cs []
    else
      splitWsAux cs (c :: acc)

/-- Model of Python `text.split()` (main.py line 45). -/
def pySplit (text : String) : List String := splitWsAux text.data []

/-- main.py lines 46-49, the inner loop: does `word` start with any recognized
link start? (The Python `break` after the first matching start means a word is
appended at most once, i.e. exactly when some start matches.) -/
def matchesStoryStart (word : String) : Bool :=
  AO3_STORY_URL_STARTS.any fun ls => startswith word ls

/-- main.py lines 37-52: `find_ao3_story_urls` returns all AO3 story URLs in
`text`, normalized with `normalize_url`, appended in order of appearance. -/
def find_ao3_story_urls (text : String) : List String :=
  (pySplit text).foldl
    (fun links word =>
      if matchesStoryStart word then links ++ [normalize_url word] else links)
    []

/-! ## Document model -/

/-- A located HTML element, exposing BeautifulSoup's `.string`, which is
`None` when the element does not have exactly one string child. -/
structure ANode where
  string : Option String
  deriving DecidableEq

/-- A located `dd` element: its `.string` and its `<a>` descendants
(`find_all("a")`), in document order. -/
structure DDNode where
  string : Option String
  links : List ANode
  deriving DecidableEq

/-- A parsed document, exposing exactly the lookups main.py performs:
`title` is `soup.find("h2", class_="title")`, `author` is
`soup.find("a", rel="author")`, and `dd c` is `soup.find("dd", class_=c)`. -/
structure Soup where
  title : Option ANode
  author : Option ANode
  dd : String → Option DDNode

/-- main.py lines 55-59: `get_tag` returns the `.string` of the `dd` element
of class `tag_class`, or `None` if the element is absent.  (Both `None`
sources collapse into `none`.) -/
def get_tag (soup : Soup) (tag_class : String) : Option String :=
  (soup.dd tag_class).bind fun n => n.string

/-- Sequence a list of optional strings: `none` if any element is `none`.
Models that Python `", ".join(tags)` raises `TypeError` when some element of
`tags` is `None`. -/
def seqOpts : List (Option String) → Option (List String)
  | [] => some []
  | none :: _ => none
  | some s :: rest => (seqOpts rest).map fun ss => s :: ss

/-- Model of Python `sep.join(parts)` over a list of strings. -/
def joinSep (sep : String) : List String → String
  | [] => ""
  | [x] => x
  | x :: y :: rest => x ++ sep ++ joinSep sep (y :: rest)

/-- Python `sep.join(tags)` where `tags : List[Optional[str]]`: raises
(`Except.error`) when some element is `None`. -/
def pyJoin (sep : String) (parts : List (Option String)) : Except Unit String :=
  match seqOpts parts with
  | none => Except.error ()
  | some ss => Except.ok (joinSep sep ss)

/-- main.py lines 62-69: `get_tags_from_list` joins the `.string`s of the
`<a>` descendants of the `dd` element of class `tag_list_class` with `", "`;
`none` when the element is absent; raises when some `<a>`'s `.string` is
`None`. -/
def get_tags_from_list (soup : Soup) (tag_list_class : String) :
    Except Unit (Option String) :=
  match soup.dd tag_list_class with
  | none => Except.ok none
  | some node => (pyJoin ", " (node.links.map fun a => a.string)).map some

/-- Model of Python `str.strip()`: drop whitespace from both ends. -/
def pyStrip (s : String) : String :=
  String.mk (((s.data.dropWhile Char.isWhitespace).reverse.dropWhile
    Char.isWhitespace).reverse)

/-- main.py lines 82-84: the title field.  `title_node.string.strip()` raises
`AttributeError` when the located element's `.string` is `None`. -/
def extractTitle (soup : Soup) : Except Unit (Option String) :=
  match soup.title with
  | none => Except.ok none
  | some n =>
    match n.string with
    | none => Except.error ()
    | some s => Except.ok (some (pyStrip s))

/-- main.py lines 85-87: the author field.  `tag_info["author"]` is set to
`author_node.string`, which may itself be `None` and is then removed by the
line-99 filter; both cases collapse into `none`. -/
def extractAuthor (soup : Soup) : Option String :=
  soup.author.bind fun n => n.string

/-- The final tag dictionary of main.py lines 81-101, after the line-99
filter `{k: v for k, v in tag_info.items() if v is not None}`: a field is
`none` exactly when its key is absent from the dict.  Field order is the
dict's (fixed) insertion order. -/
structure TagRecord where
  title : Option String := none
  author : Option String := none
  words : Option String := none
  chapters : Option String := none
  rating : Option String := none
  warnings : Option String := none
  categories : Option String := none
  fandoms : Option String := none
  relationships : Option String := none
  characters : Option String := none
  tags : Option String := none
  deriving DecidableEq

/-- The record with zero fields (the empty dict). -/
def emptyTagRecord : TagRecord := {}

/-- main.py lines 81-101 minus the fetch: extract every field from a parsed
document.  An exception in any field lookup propagates (there is no
per-field handler in the source). -/
def extractAllTags (soup : Soup) : Except Unit TagRecord := do
  let title ← extractTitle soup
  let rating ← get_tags_from_list soup "rating"
  let warnings ← get_tags_from_list soup "warning"
  let categories ← get_tags_from_list soup "category"
  let fandoms ← get_tags_from_list soup "fandom"
  let relationships ← get_tags_from_list soup "relationship"
  let characters ← get_tags_from_list soup "characters"
  let tags ← get_tags_from_list soup "freeform"
  pure
    { title := title
      author := extractAuthor soup
      words := get_tag soup "words"
      chapters := get_tag soup "chapters"
      rating := rating
      warnings := warnings
      categories := categories
      fandoms := fandoms
      relationships := relationships
      characters := characters
      tags := tags }

/-! ## Fetch model -/

/-- The outcome of `requests.get(url)` followed by
`BeautifulSoup(response.text, "html.parser")`: either the GET raised
(timeout, connection error), or a response arrived with a status code and a
body whose parse either raised or produced a `Soup`. -/
inductive FetchResult where
  | raised : FetchResult
  | response (status : Nat) (body : Except Unit Soup) : FetchResult

/-- main.py lines 72-101: `get_tags_for_story_url`, with the HTTP layer
abstracted into `fetch`.  `Except.error` models an uncaught exception,
`Except.ok none` models the Python `return None` on a non-200 status. -/
def get_tags_for_story_url (fetch : String → FetchResult) (url : String) :
    Except Unit (Option TagRecord) :=
  match fetch url with
  | FetchResult.raised => Except.error ()
  | FetchResult.response status body =>
    if status ≠ 200 then Except.ok none
    else
      match body with
      | Except.error _ => Except.error ()
      | Except.ok soup => (extractAllTags soup).map some

/-! ## Formatter -/

/-- Model of Python `str.capitalize()`: first character uppercased, the rest
lowercased. -/
def capitalize (s : String) : String :=
  match s.data with
  | [] => ""
  | c :: cs => String.mk (c.toUpper :: cs.map Char.toLower)

/-- One iteration of the main.py lines 115-127 loop: append
`"\n<b>{key.capitalize()}:</b> {value}"` when the key is present. -/
def addLine (m : String) (key : String) (v : Option String) : String :=
  match v with
  | none => m
  | some s => m ++ "\n<b>" ++ capitalize key ++ ":</b> " ++ s

/-- main.py lines 110-114: the title/author header block ("`by author`" is
emitted only inside the title branch). -/
def titleBlock (t : TagRecord) : String :=
  match t.title with
  | none => ""
  | some ti =>
    match t.author with
    | none => "\n<b>" ++ ti ++ "</b>" ++ "\n"
    | some a => "\n<b>" ++ ti ++ "</b>" ++ " by <b>" ++ a ++ "</b>" ++ "\n"

/-- main.py lines 109-127: the message text accumulated before the
empty-message fallback check. -/
def composeBody (t : TagRecord) : String :=
  let m := titleBlock t
  let m := addLine m "words" t.words
  let m := addLine m "chapters" t.chapters
  let m := addLine m "rating" t.rating
  let m := addLine m "warnings" t.warnings
  let m := addLine m "categories" t.categories
  let m := addLine m "fandoms" t.fandoms
  let m := addLine m "relationships" t.relationships
  let m := addLine m "characters" t.characters
  addLine m "tags" t.tags

/-- main.py lines 109-129: compose the full message text for a tag record,
with the "is the story locked?" fallback when no field produced any text. -/
def composeMessage (url : String) (t : TagRecord) : String :=
  if composeBody t = "" then
    "Could not extract tags for " ++ url ++ "; is the story locked?"
  else composeBody t

/-- main.py lines 135-138: `[message_text[i : i + N] for i in range(0, len(message_text), N)]`,
as a recursion on the character list: take the next `n` characters, recurse on
the rest.  (The `n = 0` branch is unreachable in the program, where
`n = MAXIMUM_MESSAGE_LENGTH`; Python `range` would reject a zero step.) -/
def chunkList (n : Nat) (xs : List Char) : List (List Char) :=
  if xs.isEmpty then []
  else if n = 0 then [xs]
  else xs.take n :: chunkList n (xs.drop n)
termination_by xs.length
decreasing_by
  simp only [List.isEmpty_iff] at *
  have hx : 0 < xs.length := List.length_pos.mpr (by assumption)
  simp only [List.length_drop]
  omega

/-- main.py lines 104-138: `get_messages_for_story` composes the message text
and splits it into `MAXIMUM_MESSAGE_LENGTH`-sized slices. -/
def get_messages_for_story (url : String) (tag_info : TagRecord) : List String :=
  let message_text := composeMessage url tag_info
  (chunkList MAXIMUM_MESSAGE_LENGTH message_text.data).map fun cs => String.mk cs

/-! ## Per-message reply loop -/

/-- main.py lines 197-208: the body of the per-URL loop in `message_reply`.
The `try`/bare-`except` means any exception escaping
`get_tags_for_story_url` (or the pure formatting after it) is replaced by the
single internal-error message; a `None` record becomes the single
"does the story exist?" message. -/
def repliesForUrl (fetch : String → FetchResult) (url : String) : List String :=
  match get_tags_for_story_url fetch url with
  | Except.error _ => ["Internal error while retrieving tags for " ++ url]
  | Except.ok none => ["Could not extract tags for " ++ url ++ "; does the story exist?"]
  | Except.ok (some tag_info) => get_messages_for_story url tag_info

/-- main.py lines 185-218: all message texts sent in reply to one inbound
message, in send order (URLs processed sequentially, each URL's chunks sent
in order).  When no URL is found nothing is sent. -/
def message_reply (fetch : String → FetchResult) (text : String) : List String :=
  (find_ao3_story_urls text).flatMap (repliesForUrl fetch)

/-! ## Verification fixtures -/

/-- The lengths of the chunks of a list of length `l`, as a recursion on
`l` alone (used to compute chunk counts without evaluating the chunks). -/
def chunkLens (n l : Nat) : List Nat :=
  if l = 0 then []
  else if n = 0 then [l]
  else min n l :: chunkLens n (l - n)
termination_by l
decreasing_by omega

/-- A parsed page on which every lookup fails (e.g. a locked story's page). -/
def emptySoup : Soup := { title := none, author := none, dd := fun _ => none }

/-- A parsed page whose `dd.rating` container exists but holds no `<a>`
children. -/
def emptyRatingSoup : Soup :=
  { title := none, author := none,
    dd := fun c =>
      if c = "rating" then some { string := none, links := [] } else none }

/-- A parsed page whose `h2.title` element exists but whose `.string` is
`None` (e.g. the title holds nested markup), while a well-formed `dd.words`
field is also present. -/
def badTitleSoup : Soup :=
  { title := some { string := none }, author := none,
    dd := fun c =>
      if c = "words" then some { string := some "100", links := [] } else none }

/-- An environment in which every GET yields HTTP 404 (with an unparseable
body, to witness that the body is never consulted). -/
def notFoundFetch : String → FetchResult :=
  fun _ => FetchResult.response 404 (Except.error ())

/-- An environment in which every GET yields HTTP 201 with a perfectly
parseable page that has a title. -/
def status201Fetch : String → FetchResult :=
  fun _ =>
    FetchResult.response 201
      (Except.ok { title := some { string := some "Foo" }, author := none,
                   dd := fun _ => none })

/-- The first URL of `wText`; `witnessFetch` raises on it. -/
def wBad : String := "https://archiveofourown.org/works/1"

/-- The second URL of `wText`; `witnessFetch` answers it with HTTP 404. -/
def wGood : String := "https://archiveofourown.org/works/2"

/-- A message containing two story links. -/
def wText : String := "archiveofourown.org/works/1 archiveofourown.org/works/2"

/-- An environment in which the GET for `wBad` raises a connection error and
every other GET completes with HTTP 404. -/
def witnessFetch : String → FetchResult :=
  fun u =>
    if u = wBad then FetchResult.raised
    else FetchResult.response 404 (Except.error ())

/-- A URL of 4096 characters. -/
def longUrl : String := String.mk (List.replicate 4096 'a')

/-- A record with an author but no title, whose author value coincides with
the rendered label of the words field. -/
def authorCoincidenceRecord : TagRecord :=
  { author := some "Words", words := some "1" }

/-- A record with an author, a fandom, and no title. -/
def wRecord : TagRecord := { fandoms := some "Bar" }

/-! ## Helper lemmas: prefixes and the detector -/

/-- `List.isPrefixOf` on characters, as an explicit decomposition. -/
lemma isPrefixOf_eq_true_iff :
    ∀ (p s : List Char), p.isPrefixOf s = true ↔ ∃ t, s = p ++ t := by
  intro p
  induction p with
  | nil => intro s; simp [List.isPrefixOf]
  | cons a as ih =>
    intro s
    cases s with
    | nil => simp [List.isPrefixOf]
    | cons b bs =>
      simp only [List.isPrefixOf, Bool.and_eq_true, beq_iff_eq, ih bs,
        List.cons_append, List.cons.injEq]
      constructor
      · rintro ⟨rfl, t, rfl⟩; exact ⟨t, rfl, rfl⟩
      · rintro ⟨t, rfl, rfl⟩; exact ⟨rfl, t, rfl⟩

/-- `startswith`, as an explicit decomposition of the character list. -/
lemma startswith_iff (s p : String) :
    startswith s p = true ↔ ∃ t, s.data = p.data ++ t :=
  isPrefixOf_eq_true_iff p.data s.data

lemma data_append (a b : String) : (a ++ b).data = a.data ++ b.data := rfl

/-- The accumulator-passing loop of `find_ao3_story_urls`, characterized as
filter-then-map. -/
lemma foldl_links_eq (ws : List String) (acc : List String) :
    ws.foldl
      (fun links word =>
        if matchesStoryStart word then links ++ [normalize_url word] else links)
      acc
    = acc ++ (ws.filter matchesStoryStart).map normalize_url := by
  induction ws generalizing acc with
  | nil => simp
  | cons w ws ih =>
    by_cases h : matchesStoryStart w <;>
      simp [List.foldl_cons, List.filter_cons, h, ih]

/-- The detector emits exactly the matching tokens, normalized, in order. -/
lemma find_urls_eq (text : String) :
    find_ao3_story_urls text
      = ((pySplit text).filter matchesStoryStart).map normalize_url := by
  simpa using foldl_links_eq (pySplit text) []

/-- Any word matching a recognized start normalizes to a URL that starts with
the full scheme-qualified canonical start `https://archiveofourown.org/works`
after a (possibly empty) prefix of... (precisely: begins with `https://` and
contains the canonical segment `archiveofourown.org/works`). -/
lemma normalize_matching (w : String) (h : matchesStoryStart w = true) :
    startswith (normalize_url w) "https://" = true
    ∧ ∃ pre post, (normalize_url w).data
        = pre ++ "archiveofourown.org/works".data ++ post := by
  have hsplit : "https://archiveofourown.org/works".data
      = "https://".data ++ "archiveofourown.org/works".data := by decide
  simp only [matchesStoryStart, AO3_STORY_URL_STARTS, List.any_cons,
    List.any_nil, Bool.or_false, Bool.or_eq_true] at h
  rcases h with h | h
  · -- the word already carries the https:// scheme
    obtain ⟨t, ht⟩ := (startswith_iff _ _).mp h
    have hhttps : startswith w "https://" = true := by
      rw [startswith_iff]
      exact ⟨"archiveofourown.org/works".data ++ t, by
        rw [ht, hsplit, List.append_assoc]⟩
    have hn : normalize_url w = w := by simp [normalize_url, hhttps]
    refine ⟨by rw [hn]; exact hhttps, "https://".data, t, ?_⟩
    rw [hn, ht, hsplit, List.append_assoc]
  · -- schema-less word
    obtain ⟨t, ht⟩ := (startswith_iff _ _).mp h
    rw [normalize_url]
    by_cases hc : startswith w "https://" = true
    · rw [if_pos hc]
      exact ⟨hc, [], t, by simpa using ht⟩
    · rw [if_neg hc]
      refine ⟨?_, "https://".data, t, ?_⟩
      · rw [startswith_iff]
        exact ⟨w.data, by rw [data_append]⟩
      · rw [data_append, ht, List.append_assoc]

/-! ## Helper lemmas: chunking -/

lemma chunkList_flatten (n : Nat) (xs : List Char) :
    (chunkList n xs).flatten = xs := by
  rw [chunkList]
  by_cases he : xs.isEmpty
  · rw [if_pos he]
    simp [List.isEmpty_iff.mp he]
  · rw [if_neg he]
    by_cases hn : n = 0
    · simp [hn]
    · rw [if_neg hn, List.flatten_cons, chunkList_flatten n (xs.drop n),
        List.take_append_drop]
termination_by xs.length
decreasing_by
  simp only [List.isEmpty_iff] at he
  have hx : 0 < xs.length := List.length_pos.mpr he
  simp only [List.length_drop]
  omega

lemma chunkList_ne_nil (n : Nat) (xs : List Char) (h : ¬xs.isEmpty) :
    chunkList n xs ≠ [] := by
  rw [chunkList, if_neg h]
  by_cases hn : n = 0 <;> simp [hn]

lemma chunkList_length_le (n : Nat) (hn : 0 < n) (xs : List Char) :
    ∀ c ∈ chunkList n xs, c.length ≤ n := by
  intro c hc
  rw [chunkList] at hc
  by_cases he : xs.isEmpty
  · rw [if_pos he] at hc; exact absurd hc (List.not_mem_nil c)
  · rw [if_neg he, if_neg (Nat.pos_iff_ne_zero.mp hn)] at hc
    rcases List.mem_cons.mp hc with rfl | hc
    · simp [Nat.min_le_left n xs.length]
    · exact chunkList_length_le n hn (xs.drop n) c hc
termination_by xs.length
decreasing_by
  simp only [List.isEmpty_iff] at he
  have hx : 0 < xs.length := List.length_pos.mpr he
  simp only [List.length_drop]
  omega

lemma chunkList_map_length (n : Nat) (xs : List Char) :
    (chunkList n xs).map List.length = chunkLens n xs.length := by
  rw [chunkList, chunkLens]
  by_cases he : xs.isEmpty
  · rw [if_pos he, if_pos (by simpa [List.isEmpty_iff_length_eq_zero] using he)]
    rfl
  · have hx : xs.length ≠ 0 := by
      simpa [List.isEmpty_iff_length_eq_zero] using he
    rw [if_neg he, if_neg hx]
    by_cases hn : n = 0
    · simp [hn]
    · rw [if_neg hn, if_neg hn, List.map_cons,
        chunkList_map_length n (xs.drop n)]
      simp [Nat.min_comm]
termination_by xs.length
decreasing_by
  have hx : 0 < xs.length := by omega
  simp only [List.length_drop]
  omega

lemma chunkList_of_short (n : Nat) (xs : List Char) (h0 : ¬xs.isEmpty)
    (hle : xs.length ≤ n) : chunkList n xs = [xs] := by
  have hn : n ≠ 0 := by
    simp only [List.isEmpty_iff] at h0
    have := List.length_pos.mpr h0
    omega
  rw [chunkList, if_neg h0, if_neg hn, List.take_of_length_le hle,
    List.drop_of_length_le hle, chunkList]
  simp

lemma chunkLens_step (n l : Nat) :
    chunkLens n l
      = if l = 0 then [] else if n = 0 then [l] else min n l :: chunkLens n (l - n) := by
  rw [chunkLens]

lemma chunkLens_4096_9000 : chunkLens 4096 9000 = [4096, 4096, 808] := by
  rw [chunkLens_step]; norm_num [Nat.min_def]
  rw [chunkLens_step]; norm_num [Nat.min_def]
  rw [chunkLens_step]; norm_num [Nat.min_def]
  rw [chunkLens_step]; norm_num

lemma chunkLens_4096_4145 : chunkLens 4096 4145 = [4096, 49] := by
  rw [chunkLens_step]; norm_num [Nat.min_def]
  rw [chunkLens_step]; norm_num [Nat.min_def]
  rw [chunkLens_step]; norm_num

/-! ## Helper lemmas: the formatter -/

lemma data_eq_nil_iff (s : String) : s.data = [] ↔ s = "" := by
  constructor
  · intro h
    have : String.mk s.data = String.mk [] := by rw [h]
    exact this
  · intro h; rw [h]

lemma fallback_locked_ne_empty (url : String) :
    "Could not extract tags for " ++ url ++ "; is the story locked?" ≠ "" := by
  intro hcontra
  have hlen := congrArg (fun s : String => s.data.length) hcontra
  simp only [data_append, List.length_append] at hlen
  have h1 : ("Could not extract tags for " : String).data.length = 27 := by decide
  have h2 : ("; is the story locked?" : String).data.length = 22 := by decide
  have h3 : ("" : String).data.length = 0 := rfl
  rw [h1, h2, h3] at hlen
  omega

lemma composeMessage_ne_empty (url : String) (t : TagRecord) :
    composeMessage url t ≠ "" := by
  rw [composeMessage]
  by_cases h : composeBody t = ""
  · rw [if_pos h]; exact fallback_locked_ne_empty url
  · rw [if_neg h]; exact h

/-- When the title is absent, the composed body never consults the author. -/
lemma composeBody_author_irrelevant (t : TagRecord) (a : Option String)
    (ht : t.title = none) :
    composeBody { t with author := a } = composeBody { t with author := none } := by
  simp [composeBody, titleBlock, ht]

/-! ## Helper lemmas: the extractor -/

lemma ok_bind {α β : Type} (a : α) (f : α → Except Unit β) :
    (Except.ok a >>= f : Except Unit β) = f a := rfl

lemma exceptBindInv {α β : Type} (e : Except Unit α) (f : α → Except Unit β)
    (b : β) (h : (e >>= f) = Except.ok b) :
    ∃ a, e = Except.ok a ∧ f a = Except.ok b := by
  cases e with
  | error u => exact absurd h (by simp [Bind.bind, Except.bind])
  | ok a => exact ⟨a, rfl, by rw [ok_bind] at h; exact h⟩

lemma get_tags_from_list_of_absent (soup : Soup) (c : String)
    (h : soup.dd c = none) : get_tags_from_list soup c = Except.ok none := by
  simp [get_tags_from_list, h]

/-- Inversion of a successful extraction: every field whose container lookup
fails is omitted from the record. -/
lemma extract_ok_inv (soup : Soup) (rec : TagRecord)
    (h : extractAllTags soup = Except.ok rec) :
    (soup.title = none → rec.title = none)
    ∧ (soup.author = none → rec.author = none)
    ∧ (soup.dd "words" = none → rec.words = none)
    ∧ (soup.dd "chapters" = none → rec.chapters = none)
    ∧ (soup.dd "rating" = none → rec.rating = none)
    ∧ (soup.dd "warning" = none → rec.warnings = none)
    ∧ (soup.dd "category" = none → rec.categories = none)
    ∧ (soup.dd "fandom" = none → rec.fandoms = none)
    ∧ (soup.dd "relationship" = none → rec.relationships = none)
    ∧ (soup.dd "characters" = none → rec.characters = none)
    ∧ (soup.dd "freeform" = none → rec.tags = none) := by
  unfold extractAllTags at h
  obtain ⟨title, hti, h⟩ := exceptBindInv _ _ _ h
  obtain ⟨rating, hra, h⟩ := exceptBindInv _ _ _ h
  obtain ⟨warnings, hwa, h⟩ := exceptBindInv _ _ _ h
  obtain ⟨categories, hca, h⟩ := exceptBindInv _ _ _ h
  obtain ⟨fandoms, hfa, h⟩ := exceptBindInv _ _ _ h
  obtain ⟨relationships, hre, h⟩ := exceptBindInv _ _ _ h
  obtain ⟨characters, hch, h⟩ := exceptBindInv _ _ _ h
  obtain ⟨tags, hta, h⟩ := exceptBindInv _ _ _ h
  have hrec : rec
      = { title := title
          author := extractAuthor soup
          words := get_tag soup "words"
          chapters := get_tag soup "chapters"
          rating := rating
          warnings := warnings
          categories := categories
          fandoms := fandoms
          relationships := relationships
          characters := characters
          tags := tags } := by
    simp only [pure, Except.pure, Except.ok.injEq] at h
    exact h.symm
  subst hrec
  refine ⟨?_, ?_, ?_, ?_, ?_, ?_, ?_, ?_, ?_, ?_, ?_⟩
  · intro hd
    simp only [extractTitle, hd, Except.ok.injEq] at hti
    simp [hti]
  · intro hd; simp [extractAuthor, hd]
  · intro hd; simp [get_tag, hd]
  · intro hd; simp [get_tag, hd]
  · intro hd
    rw [get_tags_from_list_of_absent soup _ hd] at hra
    simp only [Except.ok.injEq] at hra
    simp [hra]
  · intro hd
    rw [get_tags_from_list_of_absent soup _ hd] at hwa
    simp only [Except.ok.injEq] at hwa
    simp [hwa]
  · intro hd
    rw [get_tags_from_list_of_absent soup _ hd] at hca
    simp only [Except.ok.injEq] at hca
    simp [hca]
  · intro hd
    rw [get_tags_from_list_of_absent soup _ hd] at hfa
    simp only [Except.ok.injEq] at hfa
    simp [hfa]
  · intro hd
    rw [get_tags_from_list_of_absent soup _ hd] at hre
    simp only [Except.ok.injEq] at hre
    simp [hre]
  · intro hd
    rw [get_tags_from_list_of_absent soup _ hd] at hch
    simp only [Except.ok.injEq] at hch
    simp [hch]
  · intro hd
    rw [get_tags_from_list_of_absent soup _ hd] at hta
    simp only [Except.ok.injEq] at hta
    simp [hta]

lemma seqOpts_of_all (l : List (Option String)) (h : ∀ o ∈ l, o ≠ none) :
    ∃ ss, seqOpts l = some ss := by
  induction l with
  | nil => exact ⟨[], rfl⟩
  | cons o rest ih =>
    cases o with
    | none => exact absurd rfl (h none (by simp))
    | some s =>
      obtain ⟨ss, hss⟩ := ih fun o ho => h o (by simp [ho])
      exact ⟨s :: ss, by simp [seqOpts, hss]⟩

lemma get_tags_from_list_of_readable (soup : Soup) (c : String)
    (h : ∀ node, soup.dd c = some node → ∀ a ∈ node.links, a.string ≠ none) :
    ∃ v, get_tags_from_list soup c = Except.ok v := by
  cases hdd : soup.dd c with
  | none => exact ⟨none, by simp [get_tags_from_list, hdd]⟩
  | some node =>
    obtain ⟨ss, hss⟩ := seqOpts_of_all (node.links.map fun a => a.string) (by
      intro o ho
      simp only [List.mem_map] at ho
      obtain ⟨a, ha, rfl⟩ := ho
      exact h node hdd a ha)
    exact ⟨some (joinSep ", " ss),
      by simp [get_tags_from_list, hdd, pyJoin, hss, Except.map]⟩

lemma extractTitle_ok_of_readable (soup : Soup)
    (h : ∀ n, soup.title = some n → n.string ≠ none) :
    ∃ v, extractTitle soup = Except.ok v := by
  cases hti : soup.title with
  | none => exact ⟨none, by simp [extractTitle, hti]⟩
  | some n =>
    cases hs : n.string with
    | none => exact absurd hs (h n hti)
    | some s => exact ⟨some (pyStrip s), by simp [extractTitle, hti, hs]⟩

/-! ## Claim C1 -/

/-- Claim C1: an exception escaping the fetch/parse of one URL is caught at
the per-URL boundary of `message_reply` and yields exactly the single reply
"Internal error while retrieving tags for {url}", while the sibling URLs
before and after it in the same message are still processed normally. -/
theorem claim1_transport_failure_isolated (fetch : String → FetchResult)
    (text bad : String) (pre post : List String)
    (hurls : find_ao3_story_urls text = pre ++ bad :: post)
    (hraise : get_tags_for_story_url fetch bad = Except.error ()) :
    repliesForUrl fetch bad = ["Internal error while retrieving tags for " ++ bad]
    ∧ message_reply fetch text
        = pre.flatMap (repliesForUrl fetch)
          ++ ("Internal error while retrieving tags for " ++ bad)
            :: post.flatMap (repliesForUrl fetch) := by
  have hbad : repliesForUrl fetch bad
      = ["Internal error while retrieving tags for " ++ bad] := by
    simp [repliesForUrl, hraise]
  refine ⟨hbad, ?_⟩
  rw [message_reply, hurls, List.flatMap_append, List.flatMap_cons, hbad]
  simp

theorem claim1_transport_failure_isolated_witness :
    find_ao3_story_urls wText = [] ++ wBad :: [wGood]
    ∧ get_tags_for_story_url witnessFetch wBad = Except.error ()
    ∧ (repliesForUrl witnessFetch wBad
          = ["Internal error while retrieving tags for " ++ wBad]
       ∧ message_reply witnessFetch wText
          = ([] : List String).flatMap (repliesForUrl witnessFetch)
            ++ ("Internal error while retrieving tags for " ++ wBad)
              :: [wGood].flatMap (repliesForUrl witnessFetch)) :=
  ⟨by decide, rfl,
    claim1_transport_failure_isolated witnessFetch wText wBad [] [wGood]
      (by decide) rfl⟩

/-! ## Claim C2 -/

/-- Claim C2: for every URL and TagRecord the formatter returns a non-empty
list of chunks whose concatenation is exactly the composed message text,
every chunk has length at most 4096, and a composed text of length 9000
splits into exactly three chunks of lengths 4096, 4096 and 808. -/
theorem claim2_formatter_chunks (url : String) (t : TagRecord) :
    get_messages_for_story url t ≠ []
    ∧ ((get_messages_for_story url t).map String.data).flatten
        = (composeMessage url t).data
    ∧ (∀ c ∈ get_messages_for_story url t, c.length ≤ MAXIMUM_MESSAGE_LENGTH)
    ∧ (∀ xs : List Char, xs.length = 9000 →
        (chunkList MAXIMUM_MESSAGE_LENGTH xs).map List.length
          = [4096, 4096, 808]) := by
  have hdata : ∀ cs : List Char, (String.mk cs).data = cs := fun _ => rfl
  have hne : ¬(composeMessage url t).data.isEmpty := by
    simp only [List.isEmpty_iff, data_eq_nil_iff]
    exact composeMessage_ne_empty url t
  refine ⟨?_, ?_, ?_, ?_⟩
  · simp only [get_messages_for_story, ne_eq, List.map_eq_nil_iff]
    exact chunkList_ne_nil _ _ hne
  · simp only [get_messages_for_story, List.map_map, Function.comp_def, hdata,
      List.map_id']
    exact chunkList_flatten _ _
  · intro c hc
    simp only [get_messages_for_story, List.mem_map] at hc
    obtain ⟨cs, hcs, rfl⟩ := hc
    exact chunkList_length_le MAXIMUM_MESSAGE_LENGTH (by decide) _ cs hcs
  · intro xs hxs
    rw [chunkList_map_length, hxs]
    exact chunkLens_4096_9000

theorem claim2_formatter_chunks_witness :
    (List.replicate 9000 'a').length = 9000
    ∧ (chunkList MAXIMUM_MESSAGE_LENGTH (List.replicate 9000 'a')).map List.length
        = [4096, 4096, 808] :=
  ⟨by rw [List.length_replicate],
    (claim2_formatter_chunks "u" emptyTagRecord).2.2.2 _
      (by rw [List.length_replicate])⟩

/-! ## Claim C3 -/

/-- Claim C3 counterexample: the claim says no key is ever stored with an
empty or null value, but a document whose `dd.rating` container is present
with zero `<a>` children produces a record whose `rating` key holds the
empty string (`", ".join([]) == ""` survives the `is not None` filter). -/
theorem claim3_empty_value_counterexample :
    extractAllTags emptyRatingSoup
        = Except.ok ({ rating := some "" } : TagRecord)
    ∧ emptyRatingSoup.dd "rating" ≠ none := ⟨rfl, by decide⟩

/-- Claim C3 (amended): a key is present only if the corresponding lookup
succeeded, and a field whose container element is absent from the document is
omitted from the record — but a present list container with zero items does
store its key with an empty-string value, so "never empty" does not hold. -/
theorem claim3_amended_absent_containers_omitted (soup : Soup)
    (rec : TagRecord) (h : extractAllTags soup = Except.ok rec) :
    (soup.title = none → rec.title = none)
    ∧ (soup.author = none → rec.author = none)
    ∧ (soup.dd "words" = none → rec.words = none)
    ∧ (soup.dd "chapters" = none → rec.chapters = none)
    ∧ (soup.dd "rating" = none → rec.rating = none)
    ∧ (soup.dd "warning" = none → rec.warnings = none)
    ∧ (soup.dd "category" = none → rec.categories = none)
    ∧ (soup.dd "fandom" = none → rec.fandoms = none)
    ∧ (soup.dd "relationship" = none → rec.relationships = none)
    ∧ (soup.dd "characters" = none → rec.characters = none)
    ∧ (soup.dd "freeform" = none → rec.tags = none) :=
  extract_ok_inv soup rec h

theorem claim3_amended_absent_containers_omitted_witness :
    extractAllTags emptySoup = Except.ok emptyTagRecord
    ∧ ((emptySoup.title = none → emptyTagRecord.title = none)
      ∧ (emptySoup.author = none → emptyTagRecord.author = none)
      ∧ (emptySoup.dd "words" = none → emptyTagRecord.words = none)
      ∧ (emptySoup.dd "chapters" = none → emptyTagRecord.chapters = none)
      ∧ (emptySoup.dd "rating" = none → emptyTagRecord.rating = none)
      ∧ (emptySoup.dd "warning" = none → emptyTagRecord.warnings = none)
      ∧ (emptySoup.dd "category" = none → emptyTagRecord.categories = none)
      ∧ (emptySoup.dd "fandom" = none → emptyTagRecord.fandoms = none)
      ∧ (emptySoup.dd "relationship" = none → emptyTagRecord.relationships = none)
      ∧ (emptySoup.dd "characters" = none → emptyTagRecord.characters = none)
      ∧ (emptySoup.dd "freeform" = none → emptyTagRecord.tags = none)) :=
  ⟨rfl, claim3_amended_absent_containers_omitted emptySoup emptyTagRecord rfl⟩

/-! ## Claim C4 -/

/-- Claim C4 counterexample: the claim says a malformed field only omits its
own key and never aborts the rest of the extraction, but a present
`h2.title` element whose `.string` is `None` raises
(`None.strip()` is an `AttributeError`) and aborts the whole extraction,
even though a well-formed `dd.words` field is present on the same page. -/
theorem claim4_malformed_title_aborts_counterexample :
    extractAllTags badTitleSoup = Except.error ()
    ∧ badTitleSoup.title = some { string := none }
    ∧ get_tag badTitleSoup "words" = some "100" := ⟨rfl, rfl, rfl⟩

/-- Claim C4 (amended): field lookups are failure-isolated for missing
containers — extraction always succeeds when every located title element and
every located list item has readable text — but a located element whose text
cannot be read raises and aborts the entire extraction (surfacing as the
per-URL internal error) instead of merely omitting that key. -/
theorem claim4_amended_readable_fields_no_abort (soup : Soup)
    (htitle : ∀ n, soup.title = some n → n.string ≠ none)
    (hlinks : ∀ c node, soup.dd c = some node → ∀ a ∈ node.links, a.string ≠ none) :
    ∃ rec, extractAllTags soup = Except.ok rec := by
  obtain ⟨t1, ht1⟩ := extractTitle_ok_of_readable soup htitle
  obtain ⟨v1, h1⟩ := get_tags_from_list_of_readable soup "rating" (hlinks "rating")
  obtain ⟨v2, h2⟩ := get_tags_from_list_of_readable soup "warning" (hlinks "warning")
  obtain ⟨v3, h3⟩ := get_tags_from_list_of_readable soup "category" (hlinks "category")
  obtain ⟨v4, h4⟩ := get_tags_from_list_of_readable soup "fandom" (hlinks "fandom")
  obtain ⟨v5, h5⟩ :=
    get_tags_from_list_of_readable soup "relationship" (hlinks "relationship")
  obtain ⟨v6, h6⟩ :=
    get_tags_from_list_of_readable soup "characters" (hlinks "characters")
  obtain ⟨v7, h7⟩ := get_tags_from_list_of_readable soup "freeform" (hlinks "freeform")
  refine
    ⟨{ title := t1
       author := extractAuthor soup
       words := get_tag soup "words"
       chapters := get_tag soup "chapters"
       rating := v1
       warnings := v2
       categories := v3
       fandoms := v4
       relationships := v5
       characters := v6
       tags := v7 }, ?_⟩
  unfold extractAllTags
  rw [ht1, ok_bind, h1, ok_bind, h2, ok_bind, h3, ok_bind, h4, ok_bind, h5,
    ok_bind, h6, ok_bind, h7, ok_bind]
  rfl

theorem claim4_amended_readable_fields_no_abort_witness :
    (∀ n, emptySoup.title = some n → n.string ≠ none)
    ∧ (∀ c node, emptySoup.dd c = some node → ∀ a ∈ node.links, a.string ≠ none)
    ∧ ∃ rec, extractAllTags emptySoup = Except.ok rec :=
  ⟨fun n h => by simp [emptySoup] at h,
   fun c node h => by simp [emptySoup] at h,
   claim4_amended_readable_fields_no_abort emptySoup
     (fun n h => by simp [emptySoup] at h)
     (fun c node h => by simp [emptySoup] at h)⟩

/-! ## Claim C5 -/

/-- Claim C5: a response with a non-2xx status makes the extractor return
`NotFound` (Python `None`) regardless of the body — the body is never
parsed — and the reply for that URL is exactly the single message
"Could not extract tags for {url}; does the story exist?". -/
theorem claim5_non2xx_notfound (fetch : String → FetchResult) (url : String)
    (status : Nat) (body : Except Unit Soup)
    (hf : fetch url = FetchResult.response status body)
    (hs : status < 200 ∨ 300 ≤ status) :
    get_tags_for_story_url fetch url = Except.ok none
    ∧ repliesForUrl fetch url
        = ["Could not extract tags for " ++ url ++ "; does the story exist?"] := by
  have h200 : status ≠ 200 := by omega
  have hget : get_tags_for_story_url fetch url = Except.ok none := by
    simp [get_tags_for_story_url, hf, h200]
  exact ⟨hget, by simp [repliesForUrl, hget]⟩

theorem claim5_non2xx_notfound_witness :
    notFoundFetch wBad = FetchResult.response 404 (Except.error ())
    ∧ (404 < 200 ∨ 300 ≤ 404)
    ∧ (get_tags_for_story_url notFoundFetch wBad = Except.ok none
       ∧ repliesForUrl notFoundFetch wBad
          = ["Could not extract tags for " ++ wBad ++ "; does the story exist?"]) :=
  ⟨rfl, by omega, claim5_non2xx_notfound notFoundFetch wBad 404 (Except.error ())
    rfl (by omega)⟩

/-! ## Claim C6 -/

/-- Claim C6: the detector emits exactly the whitespace-separated tokens that
start with a recognized story-link prefix, normalized (in order, duplicates
retained, nothing else); every emitted URL starts with "https://" and
contains the canonical story path segment; and the Scenario-1 input yields
exactly the one expected URL. -/
theorem claim6_detector_contract (text : String) :
    (∀ u ∈ find_ao3_story_urls text,
        startswith u "https://" = true
        ∧ ∃ pre post, u.data = pre ++ "archiveofourown.org/works".data ++ post)
    ∧ find_ao3_story_urls text
        = ((pySplit text).filter matchesStoryStart).map normalize_url
    ∧ find_ao3_story_urls "check this out archiveofourown.org/works/12345"
        = ["https://archiveofourown.org/works/12345"] := by
  refine ⟨?_, find_urls_eq text, by decide⟩
  intro u hu
  rw [find_urls_eq] at hu
  simp only [List.mem_map, List.mem_filter] at hu
  obtain ⟨w, ⟨_, hm⟩, rfl⟩ := hu
  exact normalize_matching w hm

/-! ## Claim C7 -/

/-- Claim C7 counterexample: the claim says a `Found` outcome with an empty
record yields exactly one chunk, but for a URL of 4096 characters the
"is the story locked?" message itself has 4145 characters and is split into
two chunks. -/
theorem claim7_long_url_counterexample :
    (get_messages_for_story longUrl emptyTagRecord).length = 2
    ∧ get_messages_for_story longUrl emptyTagRecord
        ≠ ["Could not extract tags for " ++ longUrl ++ "; is the story locked?"] := by
  have hbodyempty : composeBody emptyTagRecord = "" := rfl
  have hcompose : composeMessage longUrl emptyTagRecord
      = "Could not extract tags for " ++ longUrl ++ "; is the story locked?" := by
    rw [composeMessage, if_pos hbodyempty]
  have hlen : (composeMessage longUrl emptyTagRecord).data.length = 4145 := by
    rw [hcompose]
    simp only [data_append, List.length_append]
    have h1 : ("Could not extract tags for " : String).data.length = 27 := by decide
    have h2 : ("; is the story locked?" : String).data.length = 22 := by decide
    have h3 : longUrl.data.length = 4096 := by
      show (List.replicate 4096 'a').length = 4096
      rw [List.length_replicate]
    rw [h1, h2, h3]
  have hcount : (get_messages_for_story longUrl emptyTagRecord).length = 2 := by
    calc (get_messages_for_story longUrl emptyTagRecord).length
        = (chunkList MAXIMUM_MESSAGE_LENGTH
            (composeMessage longUrl emptyTagRecord).data).length := by
          simp [get_messages_for_story]
      _ = ((chunkList MAXIMUM_MESSAGE_LENGTH
            (composeMessage longUrl emptyTagRecord).data).map List.length).length := by
          rw [List.length_map]
      _ = (chunkLens MAXIMUM_MESSAGE_LENGTH
            (composeMessage longUrl emptyTagRecord).data.length).length := by
          rw [chunkList_map_length]
      _ = (chunkLens 4096 4145).length := by rw [hlen]; rfl
      _ = 2 := by rw [chunkLens_4096_4145]; rfl
  refine ⟨hcount, fun hcontra => ?_⟩
  rw [hcontra] at hcount
  simp at hcount

/-- Claim C7 (amended): for a `Found` outcome with an empty record the reply
text is exactly "Could not extract tags for {url}; is the story locked?",
and it is a single chunk whenever that text fits in one chunk, i.e. whenever
the URL has at most 4047 characters (4096 minus the 49 fixed characters);
longer URLs split the fallback message into several chunks. -/
theorem claim7_amended_locked_message (url : String) (t : TagRecord)
    (hempty : t = emptyTagRecord) (hurl : url.length ≤ 4047) :
    get_messages_for_story url t
      = ["Could not extract tags for " ++ url ++ "; is the story locked?"] := by
  subst hempty
  have hbodyempty : composeBody emptyTagRecord = "" := rfl
  have hcompose : composeMessage url emptyTagRecord
      = "Could not extract tags for " ++ url ++ "; is the story locked?" := by
    rw [composeMessage, if_pos hbodyempty]
  have hne : ¬("Could not extract tags for " ++ url
      ++ "; is the story locked?").data.isEmpty := by
    simp only [List.isEmpty_iff, data_eq_nil_iff]
    exact fallback_locked_ne_empty url
  have hlen : ("Could not extract tags for " ++ url
      ++ "; is the story locked?").data.length ≤ MAXIMUM_MESSAGE_LENGTH := by
    simp only [data_append, List.length_append]
    have h1 : ("Could not extract tags for " : String).data.length = 27 := by decide
    have h2 : ("; is the story locked?" : String).data.length = 22 := by decide
    have h3 : url.data.length = url.length := rfl
    rw [h1, h2, h3]
    show 27 + url.length + 22 ≤ 4096
    omega
  simp only [get_messages_for_story, hcompose]
  rw [chunkList_of_short _ _ hne hlen]
  rfl

theorem claim7_amended_locked_message_witness :
    (emptyTagRecord : TagRecord) = emptyTagRecord
    ∧ wBad.length ≤ 4047
    ∧ get_messages_for_story wBad emptyTagRecord
        = ["Could not extract tags for " ++ wBad ++ "; is the story locked?"] :=
  ⟨rfl, by decide, claim7_amended_locked_message wBad emptyTagRecord rfl (by decide)⟩

/-! ## Claim C8 -/

/-- Claim C8: the detector does no path validation — any whitespace-separated
token that merely starts with the recognized prefix, even when followed by
non-numeric garbage, is treated as a match and emitted (normalized). -/
theorem claim8_prefix_match_no_validation (text w : String)
    (hw : w ∈ pySplit text)
    (hpre : startswith w "archiveofourown.org/works" = true) :
    matchesStoryStart w = true
    ∧ normalize_url w ∈ find_ao3_story_urls text := by
  have hm : matchesStoryStart w = true := by
    simp only [matchesStoryStart, AO3_STORY_URL_STARTS, List.any_cons,
      List.any_nil, Bool.or_false, Bool.or_eq_true]
    exact Or.inr hpre
  refine ⟨hm, ?_⟩
  rw [find_urls_eq]
  exact List.mem_map_of_mem _ (List.mem_filter.mpr ⟨hw, hm⟩)

theorem claim8_prefix_match_no_validation_witness :
    "archiveofourown.org/worksJUNK" ∈ pySplit "look archiveofourown.org/worksJUNK"
    ∧ startswith "archiveofourown.org/worksJUNK" "archiveofourown.org/works" = true
    ∧ (matchesStoryStart "archiveofourown.org/worksJUNK" = true
       ∧ normalize_url "archiveofourown.org/worksJUNK"
          ∈ find_ao3_story_urls "look archiveofourown.org/worksJUNK") :=
  ⟨by decide, by decide,
    claim8_prefix_match_no_validation "look archiveofourown.org/worksJUNK"
      "archiveofourown.org/worksJUNK" (by decide) (by decide)⟩

/-! ## Claim C9 -/

/-- Claim C9 counterexample: the claim says the output of a record with an
author and no title contains no occurrence of the author value, but when the
author value coincides with other rendered text (here the label "Words") it
does occur in the output. -/
theorem claim9_author_occurrence_counterexample :
    authorCoincidenceRecord.author = some "Words"
    ∧ authorCoincidenceRecord.title = none
    ∧ ∃ c ∈ get_messages_for_story "u" authorCoincidenceRecord,
        ∃ pre post, c.data = pre ++ "Words".data ++ post := by
  have hco : composeMessage "u" authorCoincidenceRecord = "\n<b>Words:</b> 1" := by
    decide
  have hne : ¬("\n<b>Words:</b> 1" : String).data.isEmpty := by decide
  have hlen : ("\n<b>Words:</b> 1" : String).data.length
      ≤ MAXIMUM_MESSAGE_LENGTH := by decide
  have hmsg : get_messages_for_story "u" authorCoincidenceRecord
      = ["\n<b>Words:</b> 1"] := by
    simp only [get_messages_for_story, hco]
    rw [chunkList_of_short _ _ hne hlen]
    rfl
  refine ⟨rfl, rfl, "\n<b>Words:</b> 1", ?_, "\n<b>".data, ":</b> 1".data, by decide⟩
  rw [hmsg]
  exact List.mem_singleton.mpr rfl

/-- Claim C9 (amended): for a record without a title, the formatter's output
is identical to the output for the same record with the author removed — the
author field is rendered only as a suffix of the title line and never among
the per-field lines — though the author's string value may still occur in the
output when it coincides with other rendered text. -/
theorem claim9_amended_author_dropped (url : String) (t : TagRecord)
    (a : Option String) (ht : t.title = none) :
    get_messages_for_story url { t with author := a }
      = get_messages_for_story url { t with author := none } := by
  have hbody := composeBody_author_irrelevant t a ht
  have hcomp : composeMessage url { t with author := a }
      = composeMessage url { t with author := none } := by
    rw [composeMessage, composeMessage, hbody]
  simp [get_messages_for_story, hcomp]

theorem claim9_amended_author_dropped_witness :
    wRecord.title = none
    ∧ get_messages_for_story "u" { wRecord with author := some "X" }
        = get_messages_for_story "u" { wRecord with author := none } :=
  ⟨rfl, claim9_amended_author_dropped "u" wRecord (some "X") rfl⟩

/-! ## Claim C10 -/

/-- Claim C10: the extractor treats only HTTP status exactly 200 as success;
any other status — including 2xx statuses such as 201 — yields the NotFound
outcome (Python `None`) without the body being parsed for tags. -/
theorem claim10_only_200_success (fetch : String → FetchResult) (url : String)
    (status : Nat) (body : Except Unit Soup)
    (hf : fetch url = FetchResult.response status body)
    (hs : status ≠ 200) :
    get_tags_for_story_url fetch url = Except.ok none := by
  simp [get_tags_for_story_url, hf, hs]

theorem claim10_only_200_success_witness :
    status201Fetch wBad
        = FetchResult.response 201
            (Except.ok { title := some { string := some "Foo" }, author := none,
                         dd := fun _ => none })
    ∧ (201 : Nat) ≠ 200
    ∧ get_tags_for_story_url status201Fetch wBad = Except.ok none :=
  ⟨rfl, by omega,
    claim10_only_200_success status201Fetch wBad 201
      (Except.ok { title := some { string := some "Foo" }, author := none,
                   dd := fun _ => none })
      rfl (by omega)⟩

end AO3TagBot
